import Mathlib

/-!
Verification of the wicked DHCPv6 client device core (`src/dhcp6/device.c`):
a shallow embedding of its data model and operations, together with theorems
about the retransmission scheduler, IAID derivation, the acquire/readiness
path, the send path, uptime accounting and lease ownership.

External collaborators of device.c (timer utilities, the message FSM, the
socket layer, the DUID store) are not part of the translated source; where a
property depends on them, the corresponding definition is modelled from the
specification and carries a doc comment saying so.
-/

namespace Wicked

/-! ## Time -/

/-- A `struct timeval` monotonic timestamp: seconds and microseconds. -/
structure Timeval where
  sec : Int
  usec : Int
deriving DecidableEq, Repr

/-- The libc `timercmp(a, b, >)` macro. -/
def timercmp_gt (a b : Timeval) : Bool :=
  a.sec > b.sec || (a.sec == b.sec && a.usec > b.usec)

/-- The libc `timersub(a, b, delta)` macro: componentwise difference with
microsecond borrow. -/
def timersub (a b : Timeval) : Timeval :=
  let s := a.sec - b.sec
  let u := a.usec - b.usec
  if u < 0 then ⟨s - 1, u + 1000000⟩ else ⟨s, u⟩

/-- Advance a timestamp by a number of milliseconds, normalizing the
microsecond field. -/
def timevalAddMsec (tv : Timeval) (msec : Nat) : Timeval :=
  let u := tv.usec + (msec % 1000) * 1000
  ⟨tv.sec + msec / 1000 + u / 1000000, u % 1000000⟩

/-! ## Constants from device.c and its headers -/

/-- `AF_INET6` address family constant. -/
def AF_INET6 : Nat := 10

/-- How long to wait until the link-layer address is ready to use
(`NI_DHCP6_WAIT_READY_MSEC` in device.c). -/
def NI_DHCP6_WAIT_READY_MSEC : Nat := 2000

/-- Modelled from the spec: the preferred-lifetime default used to seed
`config->lease_time` (`NI_DHCP6_PREFERRED_LIFETIME`, defined in dhcp6.h which
is not part of the translated source; the concrete value is immaterial to the
claims). -/
def NI_DHCP6_PREFERRED_LIFETIME : Nat := 3600

/-! ## Retransmission state -/

/-- A signed closed interval, `ni_int_range_t`. -/
structure IntRange where
  min : Int
  max : Int
deriving DecidableEq, Repr

/-- The `ni_timeout_param_t` fields used by device.c: the current timeout RT
in msec, the sampled jitter window, and the retry ceiling (`-1` = unlimited,
`0` = retransmissions disabled). -/
structure TimeoutParams where
  timeout : Nat
  jitter : IntRange
  nretries : Int
deriving DecidableEq, Repr

/-- The per-device retransmission block (`dev->retrans`).  `start` and
`deadline` are `struct timeval` fields in C where the all-zero value means
"not set" (`timerisset`); they are embedded as `Option Timeval`. -/
structure Retrans where
  delay : Nat
  start : Option Timeval
  count : Nat
  jitter : Nat
  params : TimeoutParams
  deadline : Option Timeval
  duration : Nat
deriving DecidableEq, Repr

/-- The all-zero retransmission block, as produced by `memset(&dev->retrans,
0, sizeof(dev->retrans))`. -/
def Retrans.zero : Retrans :=
  { delay := 0
  , start := none
  , count := 0
  , jitter := 0
  , params := { timeout := 0, jitter := ⟨0, 0⟩, nretries := 0 }
  , deadline := none
  , duration := 0 }

/-! ## FSM cursor and device record -/

/-- The DHCPv6 client FSM states reachable from this core; only `INIT` and
`WAIT_READY` are controlled by device.c, the rest belong to the FSM. -/
inductive FsmState where
  | INIT
  | WAIT_READY
  | SELECTING
  | REQUESTING
  | BOUND
deriving DecidableEq, Repr

/-- The session configuration object (`ni_dhcp6_config_t`), restricted to the
fields device.c reads or writes. -/
structure Config where
  uuid : List Nat
  update : Nat
  info_only : Bool
  rapid_commit : Bool
  lease_time : Nat
  client_duid : List Nat
  ia_list : List Nat
  hostname : String
deriving DecidableEq, Repr

/-- A caller-supplied acquisition request (`ni_dhcp6_request_t`), restricted
to the fields `ni_dhcp6_acquire` reads. `clientid` is the preferred DUID
already parsed to bytes. -/
structure Request where
  uuid : List Nat
  update : Nat
  info_only : Bool
  rapid_commit : Bool
  clientid : Option (List Nat)
  ia_list : Option (List Nat)
  hostname : Option String
deriving DecidableEq, Repr

/-- One interface address as seen by the readiness scan: its family, whether
it is link-local, its DAD flags, and its bytes. -/
structure Address where
  family : Nat
  linklocal : Bool
  tentative : Bool
  duplicate : Bool
  bytes : List Nat
deriving DecidableEq, Repr

/-- The kernel view of the interface used by the readiness scan: link state
and address list (`ni_netdev_t`). -/
structure Netdev where
  linkUp : Bool
  addrs : List Address
deriving DecidableEq, Repr

/-- The per-interface device record (`ni_dhcp6_device_t`), restricted to the
state device.c manipulates.  `fsmTimer` is the single live FSM timer (the
value last armed via `ni_dhcp6_fsm_set_timeout_msec`); `fsmStarted` marks
that `ni_dhcp6_fsm_start` was invoked; `bufAllocated` distinguishes clearing
the outbound buffer from deallocating it. -/
structure Device where
  ifname : List Nat
  ifindex : Nat
  iaid : Nat
  xid : Nat
  fsmState : FsmState
  fsmTimer : Option Nat
  fsmFailOnTimeout : Bool
  failed : Bool
  fsmStarted : Bool
  retrans : Retrans
  bufData : List Nat
  bufAllocated : Bool
  sockOpen : Bool
  config : Option Config
  linkAddr : Option (List Nat)
deriving DecidableEq, Repr

/-- A fresh device as built by `ni_dhcp6_device_new`: `xcalloc`-zeroed, with
the interface identity and derived IAID filled in and state `INIT`. -/
def ni_dhcp6_device_new (ifname : List Nat) (ifindex : Nat) (iaid : Nat) : Device :=
  { ifname := ifname
  , ifindex := ifindex
  , iaid := iaid
  , xid := 0
  , fsmState := FsmState.INIT
  , fsmTimer := none
  , fsmFailOnTimeout := false
  , failed := false
  , fsmStarted := false
  , retrans := Retrans.zero
  , bufData := []
  , bufAllocated := false
  , sockOpen := false
  , config := none
  , linkAddr := none }

/-! ## Uptime (`ni_dhcp6_device_uptime`) -/

/-- `ni_dhcp6_device_uptime`: centiseconds elapsed since `retrans.start`,
computed as `delta.tv_sec * 100 + delta.tv_usec / 10000` and clamped by
`(uptime < clamp) ? uptime : clamp`; 0 when `retrans.start` is unset or `now`
is not strictly later.  The current time is passed explicitly in place of the
`ni_timer_get_time` call. -/
def ni_dhcp6_device_uptime (dev : Device) (now : Timeval) (clamp : Nat) : Int :=
  let uptime : Int :=
    match dev.retrans.start with
    | none => 0
    | some st =>
      if timercmp_gt now st then
        let d := timersub now st
        d.sec * 100 + d.usec / 10000
      else 0
  if uptime < (clamp : Int) then uptime else clamp

/-! ## IAID derivation (`ni_dhcp6_device_iaid`) -/

/-- Interpret up to the first four bytes of a list as a little-endian 32-bit
value (the effect of `memcpy` into a `uint32_t` on a little-endian host). -/
def le32 (bs : List Nat) : Nat :=
  (bs.take 4).foldr (fun b acc => b % 256 + 256 * acc) 0

/-- `ni_dhcp6_device_iaid`, as a pure function of the interface facts the C
code reads through the netdev lookup: the hardware address bytes, the
interface name bytes, the VLAN tag (when a VLAN is attached), and the
ifindex.  The scratch `uint32_t tmp` receives only `len % 4` name bytes; the
remaining bytes are taken as zero. -/
def ni_dhcp6_device_iaid (hwaddr ifname : List Nat) (vlanTag : Option Nat)
    (ifindex : Nat) : Option Nat :=
  if hwaddr.length > 4 then
    some (le32 (hwaddr.drop (hwaddr.length - 4)))
  else if ifname.length ≠ 0 then
    let tmp := le32 (ifname.take (ifname.length % 4))
    let iaid0 := 0 ^^^ tmp
    let iaid1 :=
      match vlanTag with
      | some t => if t % 2 ^ 16 > 0 then iaid0 ^^^ (t % 2 ^ 16) else iaid0
      | none => iaid0
    some (iaid1 ^^^ (ifindex % 2 ^ 32))
  else
    none

/-! ## Lease ownership (`ni_dhcp6_device_set_lease`) -/

/-- Lease ownership state: the current lease pointer (identified by a
number, `none` = NULL) together with the log of pointers passed to
`ni_addrconf_dhcp6_lease_free` (which is a no-op on NULL). -/
structure LeaseState where
  lease : Option Nat
  freed : List Nat
deriving DecidableEq, Repr

/-- `ni_dhcp6_device_set_lease`: free and replace the held lease only when
the argument is a different pointer. -/
def ni_dhcp6_device_set_lease (s : LeaseState) (l : Option Nat) : LeaseState :=
  if s.lease ≠ l then
    { lease := l
    , freed :=
        match s.lease with
        | some p => s.freed ++ [p]
        | none => s.freed }
  else s

/-! ## Timer utilities (timer.c / dhcp6.c helpers, modelled from the spec)

Randomness is made explicit: each sampling helper takes the sampled jitter
value as an argument, and theorems quantify over admissible samples. -/

/-- Modelled from the spec: `ni_timeout_randomize` (timer utility, not in
src/) returns the timeout plus a jitter value sampled inside the jitter
window; the sample `j` is passed explicitly.  The C result is an unsigned
`long`; callers keep `timeout + j` non-negative. -/
def ni_timeout_randomize (timeout : Nat) (j : Int) : Nat :=
  ((timeout : Int) + j).toNat

/-- Scale a signed per-mille jitter bound by the current timeout,
truncating toward zero as C integer division does. -/
def jitterScale (msec : Nat) (b : Int) : Int :=
  b.sign * ((b.natAbs * msec) / 1000 : Nat)

/-- Modelled from the spec: `ni_dhcp6_jitter_rebase` (dhcp6 helper, not in
src/) converts jitter bounds given in tenths of a percent of the current
timeout into a millisecond window around it. -/
def ni_dhcp6_jitter_rebase (msec : Nat) (lo hi : Int) : IntRange :=
  ⟨jitterScale msec lo, jitterScale msec hi⟩

/-- Modelled from the spec: `ni_timeout_arm_msec` (timer utility, not in
src/) computes `RT = timeout + RAND` for the sampled jitter `j`, sets the
deadline to `now + RT`, and returns RT. -/
def ni_timeout_arm_msec (now : Timeval) (params : TimeoutParams) (j : Int) :
    Nat × Timeval :=
  let t := ni_timeout_randomize params.timeout j
  (t, timevalAddMsec now t)

/-- Modelled from the spec: `ni_timeout_recompute` (timer utility, not in
src/) asks the backoff policy whether to continue.  It refuses when the
retry ceiling is exhausted; otherwise it consumes one retry (a negative
ceiling means unlimited) and doubles the timeout, `RT_next = 2 * RT_prev`
before jitter. -/
def ni_timeout_recompute (p : TimeoutParams) : Option TimeoutParams :=
  if p.nretries = 0 then none
  else
    some { p with
           nretries := if p.nretries > 0 then p.nretries - 1 else p.nretries
         , timeout := 2 * p.timeout }

/-! ## Send path (`ni_dhcp6_device_transmit`) -/

/-- `ni_dhcp6_device_transmit`: refuse an empty buffer; otherwise submit the
whole buffer (the socket layer's return value `sendRv` is passed
explicitly).  A send error or short write closes the multicast socket,
clears the buffer and fails; a full-length send increments `retrans.count`
and clears (without deallocating) the buffer. -/
def ni_dhcp6_device_transmit (dev : Device) (sendRv : Int) : Device × Int :=
  if dev.bufData.length = 0 then
    (dev, -1)
  else if sendRv < 0 ∨ sendRv ≠ (dev.bufData.length : Int) then
    ({ dev with sockOpen := false, bufData := [] }, -1)
  else
    ({ dev with
       retrans := { dev.retrans with count := dev.retrans.count + 1 }
     , bufData := [] }, 0)

/-! ## Retransmission scheduler -/

/-- `ni_dhcp6_device_transmit_arm_delay`: when no initial delay is pending
return `false`; otherwise arm a single FSM timeout randomized in the
symmetric window `[delay - jitter, delay + jitter]` (the base jitter is used
as milliseconds directly) and return `true`.  The sampled jitter `j` is
passed explicitly. -/
def ni_dhcp6_device_transmit_arm_delay (dev : Device) (j : Int) :
    Device × Bool :=
  if dev.retrans.delay = 0 then
    (dev, false)
  else
    let d := ni_timeout_randomize dev.retrans.delay j
    ({ dev with fsmTimer := some d }, true)

/-- `ni_dhcp6_device_retransmit_arm`: clear the initial delay, record the
first-transmission time, and (when retries are configured) arm the
retransmission deadline - with a strictly non-negative jitter window and the
FSM duration timer reused for RT expiry in the first-Solicit case
(`SELECTING` and `count == 1`), and with a symmetric window plus an MRD
duration timer (only when `duration > 0`) otherwise. -/
def ni_dhcp6_device_retransmit_arm (dev : Device) (now : Timeval) (j : Int) :
    Device :=
  let dev0 := { dev with retrans := { dev.retrans with delay := 0, start := some now } }
  if dev0.retrans.params.nretries = 0 then dev0
  else if dev0.fsmState = FsmState.SELECTING ∧ dev0.retrans.count = 1 then
    let p1 := { dev0.retrans.params with
                jitter := ni_dhcp6_jitter_rebase dev0.retrans.params.timeout
                  0 (dev0.retrans.jitter : Int) }
    let td := ni_timeout_arm_msec now p1 j
    { dev0 with
      retrans := { dev0.retrans with
                   params := { p1 with timeout := td.1 }
                 , deadline := some td.2 }
    , fsmTimer := some td.1 }
  else
    let p1 := { dev0.retrans.params with
                jitter := ni_dhcp6_jitter_rebase dev0.retrans.params.timeout
                  (-(dev0.retrans.jitter : Int)) (dev0.retrans.jitter : Int) }
    let td := ni_timeout_arm_msec now p1 j
    let dev1 := { dev0 with
                  retrans := { dev0.retrans with
                               params := { p1 with timeout := td.1 }
                             , deadline := some td.2 } }
    if dev0.retrans.duration ≠ 0 then
      { dev1 with fsmTimer := some dev0.retrans.duration }
    else dev1

/-- `ni_dhcp6_device_retransmit_disarm`: zero the whole retransmission block
and clear the transaction id. -/
def ni_dhcp6_device_retransmit_disarm (dev : Device) : Device :=
  { dev with xid := 0, retrans := Retrans.zero }

/-- `ni_dhcp6_device_retransmit_advance`: ask the backoff policy to
recompute; on refusal report `false`, otherwise rebase the jitter window
symmetrically around the new timeout, arm the new deadline and report
`true`. -/
def ni_dhcp6_device_retransmit_advance (dev : Device) (now : Timeval)
    (j : Int) : Device × Bool :=
  match ni_timeout_recompute dev.retrans.params with
  | none => (dev, false)
  | some p0 =>
    let p1 := { p0 with
                jitter := ni_dhcp6_jitter_rebase p0.timeout
                  (-(dev.retrans.jitter : Int)) (dev.retrans.jitter : Int) }
    let td := ni_timeout_arm_msec now p1 j
    ({ dev with
       retrans := { dev.retrans with
                    params := { p1 with timeout := td.1 }
                  , deadline := some td.2 } }, true)

/-- Modelled from the spec: `ni_dhcp6_fsm_retransmit` (fsm.c, not in src/)
rebuilds the outbound message and retransmits it through the device send
path, propagating errors.  The rebuilt message and the socket outcome are
passed explicitly; `buildOk` models a message-construction failure. -/
def ni_dhcp6_fsm_retransmit (dev : Device) (msg : List Nat) (sendRv : Int)
    (buildOk : Bool) : Device × Int :=
  if buildOk then
    ni_dhcp6_device_transmit { dev with bufData := msg } sendRv
  else
    (dev, -1)

/-- `ni_dhcp6_device_retransmit`: advance the backoff; when the exchange is
over, disarm and fail; otherwise let the FSM rebuild and retransmit and
propagate its error. -/
def ni_dhcp6_device_retransmit (dev : Device) (now : Timeval) (j : Int)
    (msg : List Nat) (sendRv : Int) (buildOk : Bool) : Device × Int :=
  if (ni_dhcp6_device_retransmit_advance dev now j).2 = false then
    (ni_dhcp6_device_retransmit_disarm
      (ni_dhcp6_device_retransmit_advance dev now j).1, -1)
  else if (ni_dhcp6_fsm_retransmit
      (ni_dhcp6_device_retransmit_advance dev now j).1 msg sendRv buildOk).2 < 0 then
    ((ni_dhcp6_fsm_retransmit
      (ni_dhcp6_device_retransmit_advance dev now j).1 msg sendRv buildOk).1, -1)
  else
    ((ni_dhcp6_fsm_retransmit
      (ni_dhcp6_device_retransmit_advance dev now j).1 msg sendRv buildOk).1, 0)

/-- `ni_dhcp6_device_transmit_start`: arm retransmission, then transmit. -/
def ni_dhcp6_device_transmit_start (dev : Device) (now : Timeval) (j : Int)
    (sendRv : Int) : Device × Int :=
  let dev1 := ni_dhcp6_device_retransmit_arm dev now j
  ni_dhcp6_device_transmit dev1 sendRv

/-- `ni_dhcp6_device_transmit_init`: arm the initial delay when one is
pending, otherwise start transmitting at once. -/
def ni_dhcp6_device_transmit_init (dev : Device) (now : Timeval) (jd ja : Int)
    (sendRv : Int) : Device × Int :=
  let ad := ni_dhcp6_device_transmit_arm_delay dev jd
  if ad.2 then (ad.1, 0)
  else ni_dhcp6_device_transmit_start ad.1 now ja sendRv

/-! ## Readiness gate (`ni_dhcp6_device_set_lladdr`, `ni_dhcp6_device_find_lladdr`) -/

/-- `ni_dhcp6_device_set_lladdr`: a duplicate address is an error (-1), a
tentative one is "seen but not usable" (1), anything else is recorded as the
link-local source address (0). -/
def ni_dhcp6_device_set_lladdr (dev : Device) (addr : Address) :
    Device × Int :=
  if addr.duplicate then (dev, -1)
  else if addr.tentative then (dev, 1)
  else ({ dev with linkAddr := some addr.bytes }, 0)

/-- The scan loop of `ni_dhcp6_device_find_lladdr`: walk the address list,
skipping entries that are not IPv6 link-local; stop at the first usable
address, otherwise keep the code of the last link-local examined. -/
def findLladdrLoop (dev : Device) (addrs : List Address) (rv : Int) :
    Device × Int :=
  match addrs with
  | [] => (dev, rv)
  | a :: rest =>
    if a.family ≠ AF_INET6 ∨ ¬ a.linklocal then
      findLladdrLoop dev rest rv
    else
      let sr := ni_dhcp6_device_set_lladdr dev a
      if sr.2 = 0 then (sr.1, 0)
      else findLladdrLoop sr.1 rest sr.2

/-- `ni_dhcp6_device_find_lladdr`: fail when the link is not up, otherwise
scan the interface addresses starting from the "not yet" code 1. -/
def ni_dhcp6_device_find_lladdr (dev : Device) (ifp : Netdev) :
    Device × Int :=
  if ¬ ifp.linkUp then (dev, -1)
  else findLladdrLoop dev ifp.addrs 1

/-! ## Acquire flow (`ni_dhcp6_acquire`, `ni_dhcp6_device_start`) -/

/-- The DUID selected by the derivation chain: the caller's preferred DUID
when it parses to something non-empty, otherwise the combined outcome of the
configured / loaded / generated fallback chain. -/
def duidChoice (preferred : Option (List Nat)) (fallback : List Nat) :
    List Nat :=
  match preferred with
  | some d => if d.length ≠ 0 then d else fallback
  | none => fallback

/-- Modelled from the spec: `ni_dhcp6_config_init_duid` tries the caller's
preferred DUID first and otherwise falls through the configured / loaded /
generated chain (duid.c and the global config, not in src/), whose combined
outcome is passed as `fallback`; it succeeds exactly when the resulting DUID
is non-empty. -/
def ni_dhcp6_config_init_duid (cfg : Config) (preferred : Option (List Nat))
    (fallback : List Nat) : Config × Bool :=
  let duid := duidChoice preferred fallback
  ({ cfg with client_duid := duid }, duid.length ≠ 0)

/-- `ni_dhcp6_device_start`: refuse to start without a config; otherwise
clear the failed flag, (re)allocate the outbound buffer and hand over to the
FSM.  `ni_dhcp6_fsm_start` (fsm.c, not in src/) is modelled from the spec as
setting the `fsmStarted` marker and returning `fsmStartRv`. -/
def ni_dhcp6_device_start (dev : Device) (fsmStartRv : Int) : Device × Int :=
  if dev.config = none then (dev, -1)
  else
    ({ dev with
       failed := false
     , bufAllocated := true
     , bufData := []
     , fsmStarted := true }, fsmStartRv)

/-- `ni_dhcp6_acquire`: build a fresh config from the request, derive the
client DUID (failure frees the config and errors out), fill the IA list and
hostname, then gate on link-local readiness: a hard scan error frees the
config and fails; "not yet" installs the config, enters `WAIT_READY` with a
2000 msec fail-on-timeout timer and returns; "ready" installs the config and
starts the FSM.  `hostnameOk` stands for `ni_check_domain_name` (util, not
in src/). -/
def ni_dhcp6_acquire (dev : Device) (info : Request) (ifp : Netdev)
    (duidFallback : List Nat) (hostnameOk : Bool) (fsmStartRv : Int) :
    Device × Int :=
  let cfg0 : Config :=
    { uuid := info.uuid
    , update := info.update
    , info_only := info.info_only
    , rapid_commit := info.rapid_commit
    , lease_time := NI_DHCP6_PREFERRED_LIFETIME
    , client_duid := []
    , ia_list := []
    , hostname := "" }
  let init := ni_dhcp6_config_init_duid cfg0 info.clientid duidFallback
  if init.2 = false then (dev, -1)
  else
    let cfg1 := init.1
    let cfg2 :=
      if cfg1.info_only = false then
        { cfg1 with
          ia_list :=
            match info.ia_list with
            | none => [dev.iaid]
            | some l => l }
      else cfg1
    let cfg3 :=
      match info.hostname with
      | some h => if h.length ≠ 0 ∧ hostnameOk then { cfg2 with hostname := h } else cfg2
      | none => cfg2
    let fl := ni_dhcp6_device_find_lladdr dev ifp
    if fl.2 < 0 then (fl.1, fl.2)
    else
      let dev2 := { fl.1 with config := some cfg3 }
      if fl.2 > 0 then
        ({ dev2 with
           fsmState := FsmState.WAIT_READY
         , fsmTimer := some NI_DHCP6_WAIT_READY_MSEC
         , fsmFailOnTimeout := true }, fl.2)
      else
        ni_dhcp6_device_start dev2 fsmStartRv

/-! ## Ignore-server check (`ni_dhcp6_config_ignore_server`) -/

/-- `inet_ntop` with the `AF_INET` family constant: formats the FIRST FOUR
bytes of the given address as a dotted-quad decimal string. -/
def inet_ntop_inet (bytes : List Nat) : String :=
  match bytes with
  | b0 :: b1 :: b2 :: b3 :: _ =>
    toString b0 ++ "." ++ toString b1 ++ "." ++ toString b2 ++ "." ++ toString b3
  | _ => ""

/-- Modelled from the spec: `ni_string_array_index` (util, not in src/)
returns the index of the first exactly-equal entry, or -1. -/
def ni_string_array_index (arr : List String) (s : String) : Int :=
  match arr.indexOf? s with
  | some i => (i : Int)
  | none => -1

/-- `ni_dhcp6_config_ignore_server`: format the candidate server address
with the `AF_INET` family constant (as the C code does) and look the
resulting text up in the configured ignore list. -/
def ni_dhcp6_config_ignore_server (ignoreServers : List String)
    (addr : List Nat) : Bool :=
  ni_string_array_index ignoreServers (inet_ntop_inet addr) ≥ 0

/-! ## Scheduler operation sequences

The operations through which the FSM and the event loop drive the
retransmission block of one device.  `startExchange` is modelled from the
spec: the FSM begins an exchange on a zeroed block, assigning the
transaction id, the timing parameters and - for Solicit/Confirm/InfoRequest -
a nonzero initial delay.  A `retransmitExpire` only has an effect when a
retransmission deadline is actually armed, since the event loop dispatches
the retransmit driver on deadline expiry. -/

inductive SchedOp where
  | startExchange (xid : Nat) (delay : Nat) (params : TimeoutParams)
      (duration : Nat) (jitterBase : Nat)
  | transmitInit (now : Timeval) (jd ja : Int) (sendRv : Int)
  | transmitStart (now : Timeval) (ja : Int) (sendRv : Int)
  | retransmitExpire (now : Timeval) (j : Int) (msg : List Nat)
      (sendRv : Int) (buildOk : Bool)
  | disarm
deriving DecidableEq, Repr

/-- Apply one scheduler operation to the device. -/
def applyOp (dev : Device) (op : SchedOp) : Device :=
  match op with
  | SchedOp.startExchange x d p dur jb =>
    { dev with
      xid := x
    , retrans := { Retrans.zero with
                   delay := d, params := p, duration := dur, jitter := jb } }
  | SchedOp.transmitInit now jd ja rv =>
    (ni_dhcp6_device_transmit_init dev now jd ja rv).1
  | SchedOp.transmitStart now ja rv =>
    (ni_dhcp6_device_transmit_start dev now ja rv).1
  | SchedOp.retransmitExpire now j msg rv ok =>
    if dev.retrans.deadline = none then dev
    else (ni_dhcp6_device_retransmit dev now j msg rv ok).1
  | SchedOp.disarm => ni_dhcp6_device_retransmit_disarm dev

/-- Run a sequence of scheduler operations. -/
def runOps (dev : Device) (ops : List SchedOp) : Device :=
  ops.foldl applyOp dev

/-- The retransmission-state exclusivity invariant: a pending initial delay
means nothing was transmitted yet (no start time, zero count); moreover a
retransmission deadline is only ever armed once the delay is consumed. -/
def RetransInvariant (r : Retrans) : Prop :=
  (0 < r.delay → r.start = none ∧ r.count = 0) ∧
  (r.deadline ≠ none → r.delay = 0)

instance (r : Retrans) : Decidable (RetransInvariant r) := by
  unfold RetransInvariant; infer_instance

/-! ## Concrete example data used by witnesses and counterexamples -/

/-- A duplicate-flagged IPv6 link-local address (fe80::1, DAD failed). -/
def exAddrDup : Address :=
  ⟨10, true, false, true, [254, 128, 0, 0, 0, 0, 0, 0, 0, 0, 0, 0, 0, 0, 0, 1]⟩

/-- A tentative IPv6 link-local address (fe80::2, DAD in progress). -/
def exAddrTent : Address :=
  ⟨10, true, true, false, [254, 128, 0, 0, 0, 0, 0, 0, 0, 0, 0, 0, 0, 0, 0, 2]⟩

/-- A usable IPv6 link-local address (fe80::3). -/
def exAddrOk : Address :=
  ⟨10, true, false, false, [254, 128, 0, 0, 0, 0, 0, 0, 0, 0, 0, 0, 0, 0, 0, 3]⟩

/-- A fresh example device: interface "eth0" (bytes 101,116,104,48), ifindex
3, IAID 4. -/
def exDev : Device := ni_dhcp6_device_new [101, 116, 104, 48] 3 4

/-- Example timing parameters: IRT 1000 msec, five retries. -/
def exParams : TimeoutParams := { timeout := 1000, jitter := ⟨0, 0⟩, nretries := 5 }

/-- An example retransmission block about to send the first Solicit:
one transmission counted, base jitter 100 (0.1), IRT 1000 msec. -/
def exRetransSel : Retrans :=
  { delay := 0, start := none, count := 1, jitter := 100, params := exParams
  , deadline := none, duration := 0 }

/-- An example device in `SELECTING` at its first transmission. -/
def exDevSel : Device := { exDev with fsmState := FsmState.SELECTING, retrans := exRetransSel }

/-- An example device in a non-`SELECTING` exchange with MRD 9000 msec. -/
def exDevReq : Device :=
  { exDev with
    fsmState := FsmState.REQUESTING,
    retrans := { exRetransSel with duration := 9000 } }

/-- An example device with a pending initial delay of 1000 msec and base
jitter 100. -/
def exDevDelay : Device :=
  { exDev with retrans := { Retrans.zero with delay := 1000, jitter := 100, params := exParams } }

/-- An example device with a non-empty outbound buffer and open socket. -/
def exDevBuf : Device :=
  { exDev with bufData := [1, 2, 3], bufAllocated := true, sockOpen := true }

/-- An example acquisition request: no preferred DUID, no explicit IA list,
no hostname. -/
def exReq : Request :=
  { uuid := [1], update := 0, info_only := false, rapid_commit := false
  , clientid := none, ia_list := none, hostname := none }

/-- The 16 bytes of the IPv6 address fe80::1. -/
def exServerAddr : List Nat :=
  [254, 128, 0, 0, 0, 0, 0, 0, 0, 0, 0, 0, 0, 0, 0, 1]

/-! ## Claim C10: lease assignment is pointer-guarded and idempotent -/

/-- Claim C10: `ni_dhcp6_device_set_lease` is the identity when called with
the lease pointer the device already holds (no free, no replacement); when
the argument differs it frees the prior lease (when there was one) and
installs the new one; consequently applying it twice with the same argument
equals applying it once. -/
theorem claim_C10 :
    (∀ (s : LeaseState) (l : Option Nat), s.lease = l →
      ni_dhcp6_device_set_lease s l = s) ∧
    (∀ (s : LeaseState) (l : Option Nat), s.lease ≠ l →
      (ni_dhcp6_device_set_lease s l).lease = l ∧
      (s.lease = none → (ni_dhcp6_device_set_lease s l).freed = s.freed) ∧
      (∀ p, s.lease = some p →
        (ni_dhcp6_device_set_lease s l).freed = s.freed ++ [p])) ∧
    (∀ (s : LeaseState) (l : Option Nat),
      ni_dhcp6_device_set_lease (ni_dhcp6_device_set_lease s l) l =
        ni_dhcp6_device_set_lease s l) := by
  refine ⟨?_, ?_, ?_⟩
  · intro s l h
    simp [ni_dhcp6_device_set_lease, h]
  · intro s l h
    refine ⟨?_, ?_, ?_⟩
    · simp [ni_dhcp6_device_set_lease, h]
    · intro hn
      have h2 : (none : Option Nat) ≠ l := by rw [← hn]; exact h
      simp [ni_dhcp6_device_set_lease, hn, h2]
    · intro p hp
      have h2 : (some p : Option Nat) ≠ l := by rw [← hp]; exact h
      simp [ni_dhcp6_device_set_lease, hp, h2]
  · intro s l
    by_cases h : s.lease = l
    · simp [ni_dhcp6_device_set_lease, h]
    · simp [ni_dhcp6_device_set_lease, h]

/-- Witness for C10 at concrete lease states. -/
theorem claim_C10_witness :
    ni_dhcp6_device_set_lease ⟨some 5, []⟩ (some 5) = ⟨some 5, []⟩ ∧
    (ni_dhcp6_device_set_lease ⟨some 5, []⟩ (some 7)).lease = some 7 ∧
    (ni_dhcp6_device_set_lease ⟨some 5, []⟩ (some 7)).freed = [5] ∧
    ni_dhcp6_device_set_lease (ni_dhcp6_device_set_lease ⟨some 5, []⟩ (some 7))
        (some 7) = ni_dhcp6_device_set_lease ⟨some 5, []⟩ (some 7) :=
  ⟨claim_C10.1 ⟨some 5, []⟩ (some 5) (by decide),
   (claim_C10.2.1 ⟨some 5, []⟩ (some 7) (by decide)).1,
   (claim_C10.2.1 ⟨some 5, []⟩ (some 7) (by decide)).2.2 5 (by decide),
   claim_C10.2.2 ⟨some 5, []⟩ (some 7)⟩

/-! ## Claim C8: uptime in centiseconds, clamped -/

/-- Claim C8: `ni_dhcp6_device_uptime` returns the elapsed time since
`retrans.start` in hundredths of a second (`tv_sec * 100 + tv_usec / 10000`),
never exceeds the caller-supplied clamp, and returns 0 whenever
`retrans.start` is unset or `now` is not strictly later than it. -/
theorem claim_C8 (dev : Device) (now : Timeval) (clamp : Nat) :
    ni_dhcp6_device_uptime dev now clamp ≤ (clamp : Int) ∧
    (dev.retrans.start = none → ni_dhcp6_device_uptime dev now clamp = 0) ∧
    (∀ st, dev.retrans.start = some st → timercmp_gt now st = false →
      ni_dhcp6_device_uptime dev now clamp = 0) ∧
    (∀ st, dev.retrans.start = some st → timercmp_gt now st = true →
      ni_dhcp6_device_uptime dev now clamp =
        min ((timersub now st).sec * 100 + (timersub now st).usec / 10000)
          (clamp : Int)) := by
  unfold ni_dhcp6_device_uptime
  refine ⟨?_, ?_, ?_, ?_⟩
  · cases hst : dev.retrans.start with
    | none => simp; omega
    | some st =>
      cases hc : timercmp_gt now st with
      | false => simp [hc]; omega
      | true => simp [hc]; split <;> omega
  · intro h
    simp [h]
  · intro st h hc
    simp [h, hc]
  · intro st h hc
    simp [h, hc]
    split <;> omega

/-- Witness for C8: start 10 s, now 12.5 s, clamp 1000 gives 250; the same
instant clamped at 100 gives 100; unset start gives 0. -/
theorem claim_C8_witness :
    ni_dhcp6_device_uptime
        { exDev with retrans := { Retrans.zero with start := some ⟨10, 0⟩ } }
        ⟨12, 500000⟩ 1000 =
      min ((timersub ⟨12, 500000⟩ ⟨10, 0⟩).sec * 100 +
        (timersub ⟨12, 500000⟩ ⟨10, 0⟩).usec / 10000) (1000 : Int) ∧
    ni_dhcp6_device_uptime exDev ⟨12, 500000⟩ 1000 = 0 :=
  ⟨(claim_C8 { exDev with retrans := { Retrans.zero with start := some ⟨10, 0⟩ } }
      ⟨12, 500000⟩ 1000).2.2.2 ⟨10, 0⟩ (by decide) (by decide),
   (claim_C8 exDev ⟨12, 500000⟩ 1000).2.1 (by decide)⟩

/-! ## Claim C2: IAID derivation -/

/-- Counterexample to C2 as stated: for interface name "eth0" (4 bytes),
vlan tag 7, ifindex 3 and no usable hardware address, the code copies
`len % 4 = 0` bytes of the name into the scratch word, so the IAID is
`0 XOR 7 XOR 3 = 4` - not the four name bytes XOR 7 XOR 3 that the claim's
example demands. -/
theorem claim_C2_counterexample :
    ni_dhcp6_device_iaid [] [101, 116, 104, 48] (some 7) 3 = some 4 ∧
    (4 : Nat) ≠ (le32 [101, 116, 104, 48] ^^^ 7) ^^^ 3 := by
  decide

/-- Claim C2 as amended: IAID derivation is the pure function that (1) for a
hardware address longer than 4 bytes returns its last 4 bytes read
little-endian; (2) otherwise, for a non-empty interface name, XORs the first
`len % 4` name bytes (read as a little-endian 32-bit value, remaining bytes
zero), the VLAN tag when present and strictly positive, and the ifindex;
(3) otherwise fails - so that for name "eth0" (whose `len % 4` is 0), vlan
tag 7 and ifindex 3 the result is `0 XOR 7 XOR 3 = 4`. -/
theorem claim_C2_amended :
    (∀ hw nm (vt : Option Nat) ix, hw.length > 4 →
      ni_dhcp6_device_iaid hw nm vt ix =
        some (le32 (hw.drop (hw.length - 4)))) ∧
    (∀ hw nm ix, hw.length ≤ 4 → nm ≠ [] →
      ni_dhcp6_device_iaid hw nm none ix =
        some (le32 (nm.take (nm.length % 4)) ^^^ ix % 2 ^ 32)) ∧
    (∀ hw nm t ix, hw.length ≤ 4 → nm ≠ [] → 0 < t % 2 ^ 16 →
      ni_dhcp6_device_iaid hw nm (some t) ix =
        some ((le32 (nm.take (nm.length % 4)) ^^^ t % 2 ^ 16) ^^^ ix % 2 ^ 32)) ∧
    (∀ hw nm t ix, hw.length ≤ 4 → nm ≠ [] → t % 2 ^ 16 = 0 →
      ni_dhcp6_device_iaid hw nm (some t) ix =
        some (le32 (nm.take (nm.length % 4)) ^^^ ix % 2 ^ 32)) ∧
    (∀ hw (vt : Option Nat) ix, hw.length ≤ 4 →
      ni_dhcp6_device_iaid hw [] vt ix = none) ∧
    ni_dhcp6_device_iaid [] [101, 116, 104, 48] (some 7) 3 = some 4 := by
  refine ⟨?_, ?_, ?_, ?_, ?_, by decide⟩
  · intro hw nm vt ix h
    simp [ni_dhcp6_device_iaid, h]
  · intro hw nm ix h hnm
    have h4 : ¬ hw.length > 4 := by omega
    have hlen : nm.length ≠ 0 := by
      simpa [List.length_eq_zero] using hnm
    simp [ni_dhcp6_device_iaid, h4, hlen]
  · intro hw nm t ix h hnm ht
    have h4 : ¬ hw.length > 4 := by omega
    have hlen : nm.length ≠ 0 := by
      simpa [List.length_eq_zero] using hnm
    simp [ni_dhcp6_device_iaid, h4, hlen, ht]
    intro h0
    norm_num at ht
    exact absurd h0 (by omega)
  · intro hw nm t ix h hnm ht
    have h4 : ¬ hw.length > 4 := by omega
    have hlen : nm.length ≠ 0 := by
      simpa [List.length_eq_zero] using hnm
    simp [ni_dhcp6_device_iaid, h4, hlen, ht]
    intro h0
    norm_num at ht
    exact absurd h0 (by omega)
  · intro hw vt ix h
    have h4 : ¬ hw.length > 4 := by omega
    simp [ni_dhcp6_device_iaid, h4]

/-- Witness for the amended C2: an 8-byte hardware address yields its last
four bytes little-endian; the eth0 fallback yields 4; an empty name with a
short hardware address fails. -/
theorem claim_C2_amended_witness :
    ni_dhcp6_device_iaid [2, 17, 34, 51, 68, 85, 102, 119] [101] none 9 =
      some (le32 [68, 85, 102, 119]) ∧
    ni_dhcp6_device_iaid [1, 2] [101] none 9 =
      some (le32 [101] ^^^ 9 % 2 ^ 32) ∧
    ni_dhcp6_device_iaid [1, 2] [] (some 7) 9 = none :=
  ⟨by
    have h := claim_C2_amended.1 [2, 17, 34, 51, 68, 85, 102, 119] [101] none 9
      (by decide)
    simpa using h,
   by
    have h := claim_C2_amended.2.1 [1, 2] [101] 9 (by decide) (by decide)
    simpa using h,
   claim_C2_amended.2.2.2.2.1 [1, 2] (some 7) 9 (by decide)⟩

/-! ## Claim C9: the ignore-server check -/

/-- Claim C9 evaluation at the failing input: the code formats the IPv6
server address fe80::1 with the IPv4 family constant, producing
"254.128.0.0" from its first four bytes, and therefore misses the ignore
list entry "fe80::1" (the canonical IPv6 text of the address), while it
would match the dotted-quad text instead. -/
theorem claim_C9_code_eval :
    inet_ntop_inet exServerAddr = "254.128.0.0" ∧
    ni_dhcp6_config_ignore_server ["fe80::1"] exServerAddr = false ∧
    ni_dhcp6_config_ignore_server ["254.128.0.0"] exServerAddr = true := by
  decide

/-! ## Claim C7: the send path -/

/-- Claim C7: with a non-empty outbound buffer, a successful full-length
send increments `retrans.count` by one and clears (without deallocating) the
buffer, returning success; a send error or short write closes the multicast
socket, clears the buffer, leaves the count unchanged and fails; an empty
buffer fails without any effect. -/
theorem claim_C7 (dev : Device) (sendRv : Int) :
    (dev.bufData.length ≠ 0 → sendRv = (dev.bufData.length : Int) →
      ni_dhcp6_device_transmit dev sendRv =
        ({ dev with
           retrans := { dev.retrans with count := dev.retrans.count + 1 },
           bufData := [] }, 0)) ∧
    (dev.bufData.length ≠ 0 → sendRv < 0 ∨ sendRv ≠ (dev.bufData.length : Int) →
      ni_dhcp6_device_transmit dev sendRv =
        ({ dev with sockOpen := false, bufData := [] }, -1)) ∧
    (dev.bufData.length = 0 → ni_dhcp6_device_transmit dev sendRv = (dev, -1)) := by
  refine ⟨?_, ?_, ?_⟩
  · intro h hrv
    have hneg : ¬ (sendRv < 0 ∨ sendRv ≠ (dev.bufData.length : Int)) := by
      push_neg
      constructor
      · omega
      · exact hrv
    simp [ni_dhcp6_device_transmit, h, hneg]
  · intro h herr
    simp [ni_dhcp6_device_transmit, h, herr]
  · intro h
    simp [ni_dhcp6_device_transmit, h]

/-- Witness for C7 at a device with a 3-byte buffer: full send succeeds and
counts, short send fails and closes the socket, empty buffer fails. -/
theorem claim_C7_witness :
    ni_dhcp6_device_transmit exDevBuf 3 =
      ({ exDevBuf with
         retrans := { exDevBuf.retrans with count := exDevBuf.retrans.count + 1 },
         bufData := [] }, 0) ∧
    ni_dhcp6_device_transmit exDevBuf 2 =
      ({ exDevBuf with sockOpen := false, bufData := [] }, -1) ∧
    ni_dhcp6_device_transmit exDev 5 = (exDev, -1) :=
  ⟨(claim_C7 exDevBuf 3).1 (by decide) (by decide),
   (claim_C7 exDevBuf 2).2.1 (by decide) (Or.inr (by decide)),
   (claim_C7 exDev 5).2.2 (by decide)⟩

/-! ## Helper lemmas on jitter scaling and `ni_dhcp6_device_retransmit_arm` -/

/-- Scaling the zero per-mille bound. -/
theorem jitterScale_zero (T : Nat) : jitterScale T 0 = 0 := by
  simp [jitterScale]

/-- Scaling a non-negative per-mille bound. -/
theorem jitterScale_natCast (T jb : Nat) :
    jitterScale T (jb : Int) = ((jb * T / 1000 : Nat) : Int) := by
  cases jb with
  | zero => simp [jitterScale]
  | succ n =>
    unfold jitterScale
    rw [Int.sign_eq_one_iff_pos.mpr (by exact_mod_cast Nat.succ_pos n), one_mul,
      Int.natAbs_ofNat]

/-- Scaling a non-positive per-mille bound. -/
theorem jitterScale_neg_natCast (T jb : Nat) :
    jitterScale T (-(jb : Int)) = -((jb * T / 1000 : Nat) : Int) := by
  cases jb with
  | zero => simp [jitterScale]
  | succ n =>
    unfold jitterScale
    rw [Int.sign_neg, Int.sign_eq_one_iff_pos.mpr (by exact_mod_cast Nat.succ_pos n),
      Int.natAbs_neg, Int.natAbs_ofNat, neg_one_mul]

/-- Unfolding of `ni_dhcp6_device_retransmit_arm` in the first-Solicit case. -/
theorem retransmit_arm_first (dev : Device) (now : Timeval) (j : Int)
    (hn : dev.retrans.params.nretries ≠ 0)
    (h1 : dev.fsmState = FsmState.SELECTING) (h2 : dev.retrans.count = 1) :
    ni_dhcp6_device_retransmit_arm dev now j =
      { dev with
        fsmTimer := some (ni_timeout_randomize dev.retrans.params.timeout j),
        retrans := { dev.retrans with
          delay := 0,
          start := some now,
          params := { dev.retrans.params with
            jitter := ni_dhcp6_jitter_rebase dev.retrans.params.timeout 0
              (dev.retrans.jitter : Int),
            timeout := ni_timeout_randomize dev.retrans.params.timeout j },
          deadline := some (timevalAddMsec now
            (ni_timeout_randomize dev.retrans.params.timeout j)) } } := by
  unfold ni_dhcp6_device_retransmit_arm ni_timeout_arm_msec
  simp [h1, h2, hn]

/-- Unfolding of `ni_dhcp6_device_retransmit_arm` outside the first-Solicit
case, when no maximum retransmission duration is set. -/
theorem retransmit_arm_other_nodur (dev : Device) (now : Timeval) (j : Int)
    (hn : dev.retrans.params.nretries ≠ 0)
    (h12 : ¬ (dev.fsmState = FsmState.SELECTING ∧ dev.retrans.count = 1))
    (hdur : dev.retrans.duration = 0) :
    ni_dhcp6_device_retransmit_arm dev now j =
      { dev with
        retrans := { dev.retrans with
          delay := 0,
          start := some now,
          params := { dev.retrans.params with
            jitter := ni_dhcp6_jitter_rebase dev.retrans.params.timeout
              (-(dev.retrans.jitter : Int)) (dev.retrans.jitter : Int),
            timeout := ni_timeout_randomize dev.retrans.params.timeout j },
          deadline := some (timevalAddMsec now
            (ni_timeout_randomize dev.retrans.params.timeout j)) } } := by
  unfold ni_dhcp6_device_retransmit_arm ni_timeout_arm_msec
  simp [hn, h12, hdur]

/-- Unfolding of `ni_dhcp6_device_retransmit_arm` outside the first-Solicit
case, when a maximum retransmission duration is set. -/
theorem retransmit_arm_other_dur (dev : Device) (now : Timeval) (j : Int)
    (hn : dev.retrans.params.nretries ≠ 0)
    (h12 : ¬ (dev.fsmState = FsmState.SELECTING ∧ dev.retrans.count = 1))
    (hdur : dev.retrans.duration ≠ 0) :
    ni_dhcp6_device_retransmit_arm dev now j =
      { dev with
        fsmTimer := some dev.retrans.duration,
        retrans := { dev.retrans with
          delay := 0,
          start := some now,
          params := { dev.retrans.params with
            jitter := ni_dhcp6_jitter_rebase dev.retrans.params.timeout
              (-(dev.retrans.jitter : Int)) (dev.retrans.jitter : Int),
            timeout := ni_timeout_randomize dev.retrans.params.timeout j },
          deadline := some (timevalAddMsec now
            (ni_timeout_randomize dev.retrans.params.timeout j)) } } := by
  unfold ni_dhcp6_device_retransmit_arm ni_timeout_arm_msec
  simp [hn, h12, hdur]

/-- Unfolding of `ni_dhcp6_device_retransmit_arm` when retransmissions are
disabled: only the delay is consumed and the start time recorded. -/
theorem retransmit_arm_disabled (dev : Device) (now : Timeval) (j : Int)
    (hn : dev.retrans.params.nretries = 0) :
    ni_dhcp6_device_retransmit_arm dev now j =
      { dev with retrans := { dev.retrans with delay := 0, start := some now } } := by
  unfold ni_dhcp6_device_retransmit_arm
  simp [hn]

/-! ## Claim C1: arming retransmission, first-Solicit exception -/

/-- Claim C1: with retries configured, arming retransmission in state
`SELECTING` at `count == 1` sets the jitter window to the non-negative
`[0, jitter_base]` (scaled to msec: `[0, jb*IRT/1000]`), computes
`RT = IRT + RAND*IRT` into `params.timeout` for the strictly positive sample
(so RT is strictly greater than IRT, and RAND at the standard base 100 is at
most 0.1), sets `deadline = now + RT` and arms the FSM duration timer to
exactly RT; in every other case the window is the symmetric
`[-jitter_base, +jitter_base]` and the FSM duration timer is armed to
`retrans.duration` only when the duration is nonzero. -/
theorem claim_C1 (dev : Device) (now : Timeval) (j : Int)
    (hn : dev.retrans.params.nretries ≠ 0) :
    (dev.fsmState = FsmState.SELECTING → dev.retrans.count = 1 →
      0 < j →
      j ≤ ((dev.retrans.jitter * dev.retrans.params.timeout / 1000 : Nat) : Int) →
      (ni_dhcp6_device_retransmit_arm dev now j).retrans.params.jitter =
        ⟨0, ((dev.retrans.jitter * dev.retrans.params.timeout / 1000 : Nat) : Int)⟩ ∧
      (ni_dhcp6_device_retransmit_arm dev now j).retrans.params.timeout =
        dev.retrans.params.timeout + j.toNat ∧
      dev.retrans.params.timeout <
        (ni_dhcp6_device_retransmit_arm dev now j).retrans.params.timeout ∧
      (dev.retrans.jitter = 100 → 10 * j.toNat ≤ dev.retrans.params.timeout) ∧
      (ni_dhcp6_device_retransmit_arm dev now j).retrans.deadline =
        some (timevalAddMsec now (dev.retrans.params.timeout + j.toNat)) ∧
      (ni_dhcp6_device_retransmit_arm dev now j).fsmTimer =
        some (dev.retrans.params.timeout + j.toNat) ∧
      (ni_dhcp6_device_retransmit_arm dev now j).retrans.delay = 0 ∧
      (ni_dhcp6_device_retransmit_arm dev now j).retrans.start = some now) ∧
    (¬ (dev.fsmState = FsmState.SELECTING ∧ dev.retrans.count = 1) →
      (ni_dhcp6_device_retransmit_arm dev now j).retrans.params.jitter =
        ⟨-(((dev.retrans.jitter * dev.retrans.params.timeout / 1000 : Nat) : Int)),
          ((dev.retrans.jitter * dev.retrans.params.timeout / 1000 : Nat) : Int)⟩ ∧
      (0 < dev.retrans.duration →
        (ni_dhcp6_device_retransmit_arm dev now j).fsmTimer =
          some dev.retrans.duration) ∧
      (dev.retrans.duration = 0 →
        (ni_dhcp6_device_retransmit_arm dev now j).fsmTimer = dev.fsmTimer)) := by
  constructor
  · intro h1 h2 hj0 hjhi
    have htn : ni_timeout_randomize dev.retrans.params.timeout j =
        dev.retrans.params.timeout + j.toNat := by
      unfold ni_timeout_randomize
      omega
    rw [retransmit_arm_first dev now j hn h1 h2]
    refine ⟨?_, ?_, ?_, ?_, ?_, ?_, ?_, ?_⟩
    · simp [ni_dhcp6_jitter_rebase, jitterScale_zero, jitterScale_natCast]
    · simp [htn]
    · simp [htn]
      omega
    · intro hjb
      rw [hjb] at hjhi
      omega
    · simp [htn]
    · simp [htn]
    · simp
    · simp
  · intro h12
    rcases Nat.eq_zero_or_pos dev.retrans.duration with hdur | hdur
    · rw [retransmit_arm_other_nodur dev now j hn h12 hdur]
      refine ⟨?_, ?_, ?_⟩
      · simp [ni_dhcp6_jitter_rebase, jitterScale_natCast, jitterScale_neg_natCast]
      · intro hd
        omega
      · intro _
        simp
    · have hdur' : dev.retrans.duration ≠ 0 := by omega
      rw [retransmit_arm_other_dur dev now j hn h12 hdur']
      refine ⟨?_, ?_, ?_⟩
      · simp [ni_dhcp6_jitter_rebase, jitterScale_natCast, jitterScale_neg_natCast]
      · intro _
        simp
      · intro hd
        omega

/-- Witness for C1: the `SELECTING`/`count == 1` branch at IRT 1000 msec and
sample 37 yields RT 1037, window `[0, 100]` and the FSM timer at 1037; the
non-`SELECTING` branch arms the FSM timer to the MRD 9000 and a symmetric
window. -/
theorem claim_C1_witness :
    ((ni_dhcp6_device_retransmit_arm exDevSel ⟨100, 0⟩ 37).retrans.params.jitter =
        ⟨0, ((exDevSel.retrans.jitter * exDevSel.retrans.params.timeout / 1000 : Nat) : Int)⟩ ∧
      (ni_dhcp6_device_retransmit_arm exDevSel ⟨100, 0⟩ 37).retrans.params.timeout =
        exDevSel.retrans.params.timeout + (37 : Int).toNat ∧
      (ni_dhcp6_device_retransmit_arm exDevSel ⟨100, 0⟩ 37).fsmTimer =
        some (exDevSel.retrans.params.timeout + (37 : Int).toNat)) ∧
    ((ni_dhcp6_device_retransmit_arm exDevReq ⟨100, 0⟩ (-37)).retrans.params.jitter =
        ⟨-(((exDevReq.retrans.jitter * exDevReq.retrans.params.timeout / 1000 : Nat) : Int)),
          ((exDevReq.retrans.jitter * exDevReq.retrans.params.timeout / 1000 : Nat) : Int)⟩ ∧
      (ni_dhcp6_device_retransmit_arm exDevReq ⟨100, 0⟩ (-37)).fsmTimer =
        some exDevReq.retrans.duration) := by
  have hsel := (claim_C1 exDevSel ⟨100, 0⟩ 37 (by decide)).1 (by decide) (by decide)
    (by decide) (by decide)
  have hreq := (claim_C1 exDevReq ⟨100, 0⟩ (-37) (by decide)).2 (by decide)
  exact ⟨⟨hsel.1, hsel.2.1, hsel.2.2.2.2.2.1⟩, ⟨hreq.1, hreq.2.1 (by decide)⟩⟩

/-! ## Claim C4: the retransmit driver -/

/-- Claim C4: the retransmit driver first advances the backoff; when the
policy reports the exchange over it disarms - zeroing the whole
retransmission block and clearing `xid` - and returns an error; otherwise it
asks the FSM to rebuild and retransmit, succeeding exactly when the FSM
retransmission did. -/
theorem claim_C4 (dev : Device) (now : Timeval) (j : Int) (msg : List Nat)
    (sendRv : Int) (buildOk : Bool) :
    (dev.retrans.params.nretries = 0 →
      ni_dhcp6_device_retransmit dev now j msg sendRv buildOk =
        (ni_dhcp6_device_retransmit_disarm dev, -1) ∧
      (ni_dhcp6_device_retransmit_disarm dev).retrans = Retrans.zero ∧
      (ni_dhcp6_device_retransmit_disarm dev).xid = 0) ∧
    (dev.retrans.params.nretries ≠ 0 →
      ni_dhcp6_device_retransmit dev now j msg sendRv buildOk =
        ((ni_dhcp6_fsm_retransmit
            (ni_dhcp6_device_retransmit_advance dev now j).1 msg sendRv buildOk).1,
          if (ni_dhcp6_fsm_retransmit
              (ni_dhcp6_device_retransmit_advance dev now j).1 msg sendRv buildOk).2 < 0
          then -1 else 0) ∧
      ((ni_dhcp6_device_retransmit dev now j msg sendRv buildOk).2 = 0 ↔
        ¬ (ni_dhcp6_fsm_retransmit
            (ni_dhcp6_device_retransmit_advance dev now j).1 msg sendRv buildOk).2 < 0)) := by
  constructor
  · intro h
    have hadv : ni_dhcp6_device_retransmit_advance dev now j = (dev, false) := by
      unfold ni_dhcp6_device_retransmit_advance ni_timeout_recompute
      simp [h]
    refine ⟨?_, rfl, rfl⟩
    unfold ni_dhcp6_device_retransmit
    rw [hadv]
    simp
  · intro h
    have hadv : (ni_dhcp6_device_retransmit_advance dev now j).2 = true := by
      unfold ni_dhcp6_device_retransmit_advance ni_timeout_recompute
      simp [h]
    have heq : ni_dhcp6_device_retransmit dev now j msg sendRv buildOk =
        ((ni_dhcp6_fsm_retransmit
            (ni_dhcp6_device_retransmit_advance dev now j).1 msg sendRv buildOk).1,
          if (ni_dhcp6_fsm_retransmit
              (ni_dhcp6_device_retransmit_advance dev now j).1 msg sendRv buildOk).2 < 0
          then -1 else 0) := by
      unfold ni_dhcp6_device_retransmit
      rw [hadv, if_neg (by decide)]
      split <;> rfl
    refine ⟨heq, ?_⟩
    rw [heq]
    split <;> simp <;> omega

/-- Witness for C4: a device with the retry ceiling at zero is disarmed with
an error; a device with retries left propagates the FSM's success. -/
theorem claim_C4_witness :
    ni_dhcp6_device_retransmit exDev ⟨1, 0⟩ 0 [1] 1 true =
      (ni_dhcp6_device_retransmit_disarm exDev, -1) ∧
    ((ni_dhcp6_device_retransmit exDevSel ⟨1, 0⟩ 0 [1] 1 true).2 = 0 ↔
      ¬ (ni_dhcp6_fsm_retransmit
          (ni_dhcp6_device_retransmit_advance exDevSel ⟨1, 0⟩ 0).1 [1] 1 true).2 < 0) :=
  ⟨((claim_C4 exDev ⟨1, 0⟩ 0 [1] 1 true).1 (by decide)).1,
   ((claim_C4 exDevSel ⟨1, 0⟩ 0 [1] 1 true).2 (by decide)).2⟩

/-! ## Helper lemmas on the readiness scan -/

/-- The scan loop never touches the FSM-started marker. -/
theorem findLladdrLoop_fsmStarted (addrs : List Address) :
    ∀ (dev : Device) (rv : Int),
      (findLladdrLoop dev addrs rv).1.fsmStarted = dev.fsmStarted := by
  induction addrs with
  | nil =>
    intro dev rv
    rfl
  | cons a rest ih =>
    intro dev rv
    unfold findLladdrLoop
    split
    · exact ih dev rv
    · unfold ni_dhcp6_device_set_lladdr
      split
      · simp
        exact ih dev (-1)
      · split
        · simp
          exact ih dev 1
        · simp

/-- `ni_dhcp6_device_find_lladdr` never touches the FSM-started marker. -/
theorem find_lladdr_fsmStarted (dev : Device) (ifp : Netdev) :
    (ni_dhcp6_device_find_lladdr dev ifp).1.fsmStarted = dev.fsmStarted := by
  unfold ni_dhcp6_device_find_lladdr
  split
  · rfl
  · exact findLladdrLoop_fsmStarted ifp.addrs dev 1

/-- When every IPv6 link-local before the final list entry is duplicate or
tentative and the final entry is a duplicate-flagged IPv6 link-local, the
scan loop ends with the error code and an unchanged device. -/
theorem findLladdrLoop_ends_dup (xs : List Address) (d : Address)
    (hxs : ∀ a ∈ xs, a.family = AF_INET6 → a.linklocal = true →
      (a.duplicate = true ∨ a.tentative = true))
    (hdf : d.family = AF_INET6) (hdl : d.linklocal = true)
    (hdd : d.duplicate = true) :
    ∀ (dev : Device) (rv : Int), findLladdrLoop dev (xs ++ [d]) rv = (dev, -1) := by
  induction xs with
  | nil =>
    intro dev rv
    simp [findLladdrLoop, hdf, hdl, ni_dhcp6_device_set_lladdr, hdd, AF_INET6]
  | cons a rest ih =>
    intro dev rv
    have hxs' : ∀ b ∈ rest, b.family = AF_INET6 → b.linklocal = true →
        (b.duplicate = true ∨ b.tentative = true) := by
      intro b hb
      exact hxs b (List.mem_cons_of_mem a hb)
    have ih' := ih hxs'
    show findLladdrLoop dev (a :: (rest ++ [d])) rv = (dev, -1)
    unfold findLladdrLoop
    split
    · exact ih' dev rv
    · rename_i hrel
      push_neg at hrel
      have hfam : a.family = AF_INET6 := hrel.1
      have hll : a.linklocal = true := by
        have := hrel.2
        simpa using this
      rcases hxs a (List.mem_cons_self a rest) hfam hll with hd | ht
      · unfold ni_dhcp6_device_set_lladdr
        rw [if_pos hd]
        simp
        exact ih' dev (-1)
      · unfold ni_dhcp6_device_set_lladdr
        by_cases hd : a.duplicate = true
        · rw [if_pos hd]
          simp
          exact ih' dev (-1)
        · rw [if_neg hd, if_pos ht]
          simp
          exact ih' dev 1

/-! ## Claim C5: acquire gates on link-local readiness -/

/-- Counterexample to C5 as stated: link up, no usable link-local found
(the only link-local is duplicate-flagged), yet acquire neither installs the
config nor enters `WAIT_READY` - it hard-fails, leaving the device
untouched. -/
theorem claim_C5_counterexample :
    ni_dhcp6_acquire exDev exReq ⟨true, [exAddrDup]⟩ [1, 2, 3] true 0 =
      (exDev, -1) ∧
    (ni_dhcp6_acquire exDev exReq ⟨true, [exAddrDup]⟩ [1, 2, 3] true 0).1.fsmState ≠
      FsmState.WAIT_READY ∧
    (ni_dhcp6_acquire exDev exReq ⟨true, [exAddrDup]⟩ [1, 2, 3] true 0).1.config =
      none := by
  decide

/-- Claim C5 as amended: for every acquire whose DUID derivation succeeds
and whose readiness scan reports "not yet" (code 1: link up, no usable
link-local, and the scan not ending on a duplicate-flagged one), acquire
installs the newly built config, sets `WAIT_READY`, arms the 2000 msec FSM
timeout, sets `fail_on_timeout` and returns without starting the FSM; when
the scan finds a usable link-local (code 0) it installs the config and
starts the FSM. -/
theorem claim_C5_amended (dev : Device) (info : Request) (ifp : Netdev)
    (fallback : List Nat) (hostnameOk : Bool) (fsmStartRv : Int)
    (hdu : (duidChoice info.clientid fallback).length ≠ 0) :
    ((ni_dhcp6_device_find_lladdr dev ifp).2 = 1 →
      (ni_dhcp6_acquire dev info ifp fallback hostnameOk fsmStartRv).2 = 1 ∧
      (ni_dhcp6_acquire dev info ifp fallback hostnameOk fsmStartRv).1.fsmState =
        FsmState.WAIT_READY ∧
      (ni_dhcp6_acquire dev info ifp fallback hostnameOk fsmStartRv).1.fsmTimer =
        some NI_DHCP6_WAIT_READY_MSEC ∧
      (ni_dhcp6_acquire dev info ifp fallback hostnameOk fsmStartRv).1.fsmFailOnTimeout =
        true ∧
      (ni_dhcp6_acquire dev info ifp fallback hostnameOk fsmStartRv).1.config.isSome =
        true ∧
      (ni_dhcp6_acquire dev info ifp fallback hostnameOk fsmStartRv).1.fsmStarted =
        dev.fsmStarted) ∧
    ((ni_dhcp6_device_find_lladdr dev ifp).2 = 0 →
      (ni_dhcp6_acquire dev info ifp fallback hostnameOk fsmStartRv).1.config.isSome =
        true ∧
      (ni_dhcp6_acquire dev info ifp fallback hostnameOk fsmStartRv).1.fsmStarted =
        true ∧
      (ni_dhcp6_acquire dev info ifp fallback hostnameOk fsmStartRv).2 =
        fsmStartRv) := by
  constructor
  · intro hfind
    refine ⟨?_, ?_, ?_, ?_, ?_, ?_⟩ <;>
      simp [ni_dhcp6_acquire, ni_dhcp6_config_init_duid, hdu, hfind,
        find_lladdr_fsmStarted]
  · intro hfind
    refine ⟨?_, ?_, ?_⟩ <;>
      simp [ni_dhcp6_acquire, ni_dhcp6_config_init_duid, ni_dhcp6_device_start,
        hdu, hfind]

/-- Witness for the amended C5: a tentative-only interface waits in
`WAIT_READY` with the 2000 msec timer; a usable link-local starts the
FSM. -/
theorem claim_C5_amended_witness :
    (ni_dhcp6_acquire exDev exReq ⟨true, [exAddrTent]⟩ [1, 2, 3] true 0).1.fsmState =
      FsmState.WAIT_READY ∧
    (ni_dhcp6_acquire exDev exReq ⟨true, [exAddrTent]⟩ [1, 2, 3] true 0).1.fsmTimer =
      some NI_DHCP6_WAIT_READY_MSEC ∧
    (ni_dhcp6_acquire exDev exReq ⟨true, [exAddrTent]⟩ [1, 2, 3] true 0).1.fsmFailOnTimeout =
      true ∧
    (ni_dhcp6_acquire exDev exReq ⟨true, [exAddrTent]⟩ [1, 2, 3] true 0).1.fsmStarted =
      exDev.fsmStarted ∧
    (ni_dhcp6_acquire exDev exReq ⟨true, [exAddrOk]⟩ [1, 2, 3] true 0).1.fsmStarted =
      true := by
  have h1 := (claim_C5_amended exDev exReq ⟨true, [exAddrTent]⟩ [1, 2, 3] true 0
    (by decide)).1 (by decide)
  have h2 := (claim_C5_amended exDev exReq ⟨true, [exAddrOk]⟩ [1, 2, 3] true 0
    (by decide)).2 (by decide)
  exact ⟨h1.2.1, h1.2.2.1, h1.2.2.2.1, h1.2.2.2.2.2, h2.2.1⟩

/-! ## Claim C6: a duplicate link-local during the scan -/

/-- Counterexample to C6 as stated: an address list containing a
duplicate-flagged link-local and no usable one, where the duplicate is
followed by a tentative link-local.  The scan does NOT fail: the loop keeps
only the code of the last link-local examined, so it reports "not yet" (1)
and acquire proceeds to `WAIT_READY` instead of failing. -/
theorem claim_C6_counterexample :
    (ni_dhcp6_device_find_lladdr exDev ⟨true, [exAddrDup, exAddrTent]⟩).2 = 1 ∧
    (ni_dhcp6_acquire exDev exReq ⟨true, [exAddrDup, exAddrTent]⟩ [1, 2, 3] true 0).2 =
      1 ∧
    (ni_dhcp6_acquire exDev exReq ⟨true, [exAddrDup, exAddrTent]⟩ [1, 2, 3] true 0).1.fsmState =
      FsmState.WAIT_READY := by
  decide

/-- Claim C6 as amended: the scan fails hard on a duplicate-flagged
link-local exactly when no later link-local overrides its code - i.e. for
every address list whose IPv6 link-locals are all unusable and that ends
with a duplicate-flagged link-local, `ni_dhcp6_device_find_lladdr` returns
an error, the nascent config is freed rather than installed, and
`ni_dhcp6_acquire` returns failure with the device unchanged. -/
theorem claim_C6_amended (dev : Device) (info : Request) (xs : List Address)
    (d : Address) (fallback : List Nat) (hostnameOk : Bool) (fsmStartRv : Int)
    (hdu : (duidChoice info.clientid fallback).length ≠ 0)
    (hxs : ∀ a ∈ xs, a.family = AF_INET6 → a.linklocal = true →
      (a.duplicate = true ∨ a.tentative = true))
    (hdf : d.family = AF_INET6) (hdl : d.linklocal = true)
    (hdd : d.duplicate = true) :
    ni_dhcp6_device_find_lladdr dev ⟨true, xs ++ [d]⟩ = (dev, -1) ∧
    ni_dhcp6_acquire dev info ⟨true, xs ++ [d]⟩ fallback hostnameOk fsmStartRv =
      (dev, -1) := by
  have hfind : ni_dhcp6_device_find_lladdr dev ⟨true, xs ++ [d]⟩ = (dev, -1) := by
    unfold ni_dhcp6_device_find_lladdr
    simpa using findLladdrLoop_ends_dup xs d hxs hdf hdl hdd dev 1
  refine ⟨hfind, ?_⟩
  simp [ni_dhcp6_acquire, ni_dhcp6_config_init_duid, hdu, hfind]

/-- Witness for the amended C6: a tentative link-local followed by a
duplicate one makes both the scan and acquire fail, leaving the device
unchanged. -/
theorem claim_C6_amended_witness :
    ni_dhcp6_device_find_lladdr exDev ⟨true, [exAddrTent, exAddrDup]⟩ =
      (exDev, -1) ∧
    ni_dhcp6_acquire exDev exReq ⟨true, [exAddrTent, exAddrDup]⟩ [1, 2, 3] true 0 =
      (exDev, -1) :=
  claim_C6_amended exDev exReq [exAddrTent] exAddrDup [1, 2, 3] true 0
    (by decide)
    (by intro a ha _ _; simp at ha; rw [ha]; right; decide)
    (by decide) (by decide) (by decide)

/-! ## Helper lemmas for the retransmission-state invariant -/

/-- The invariant holds outright once the initial delay is consumed. -/
theorem retransInvariant_of_delay_zero (r : Retrans) (h : r.delay = 0) :
    RetransInvariant r :=
  ⟨fun hd => absurd h (by omega), fun _ => h⟩

/-- Arming retransmission always consumes the initial delay. -/
theorem retransmit_arm_delay_zero (dev : Device) (now : Timeval) (j : Int) :
    (ni_dhcp6_device_retransmit_arm dev now j).retrans.delay = 0 := by
  unfold ni_dhcp6_device_retransmit_arm ni_timeout_arm_msec
  dsimp only
  split
  · rfl
  · split
    · rfl
    · split
      · rfl
      · rfl

/-- Arming retransmission always records the first-transmission time. -/
theorem retransmit_arm_start (dev : Device) (now : Timeval) (j : Int) :
    (ni_dhcp6_device_retransmit_arm dev now j).retrans.start = some now := by
  unfold ni_dhcp6_device_retransmit_arm ni_timeout_arm_msec
  dsimp only
  split
  · rfl
  · split
    · rfl
    · split
      · rfl
      · rfl

/-- Transmitting never touches the initial delay. -/
theorem transmit_delay (dev : Device) (rv : Int) :
    (ni_dhcp6_device_transmit dev rv).1.retrans.delay = dev.retrans.delay := by
  unfold ni_dhcp6_device_transmit
  split
  · rfl
  · split
    · rfl
    · rfl

/-- Advancing the backoff never touches the initial delay. -/
theorem retransmit_advance_delay (dev : Device) (now : Timeval) (j : Int) :
    (ni_dhcp6_device_retransmit_advance dev now j).1.retrans.delay =
      dev.retrans.delay := by
  unfold ni_dhcp6_device_retransmit_advance ni_timeout_arm_msec
  split
  · rfl
  · rfl

/-- The FSM retransmission path never touches the initial delay. -/
theorem fsm_retransmit_delay (dev : Device) (msg : List Nat) (sendRv : Int)
    (buildOk : Bool) :
    (ni_dhcp6_fsm_retransmit dev msg sendRv buildOk).1.retrans.delay =
      dev.retrans.delay := by
  unfold ni_dhcp6_fsm_retransmit
  split
  · rw [transmit_delay]
  · rfl

/-- The retransmit driver keeps the delay at zero. -/
theorem retransmit_delay_zero (dev : Device) (now : Timeval) (j : Int)
    (msg : List Nat) (sendRv : Int) (buildOk : Bool)
    (h : dev.retrans.delay = 0) :
    (ni_dhcp6_device_retransmit dev now j msg sendRv buildOk).1.retrans.delay = 0 := by
  unfold ni_dhcp6_device_retransmit
  split
  · rfl
  · split
    · rw [fsm_retransmit_delay, retransmit_advance_delay]
      exact h
    · rw [fsm_retransmit_delay, retransmit_advance_delay]
      exact h

/-- Starting a transmission satisfies the invariant (arming consumed the
delay, and transmitting does not touch it). -/
theorem transmit_start_invariant (dev : Device) (now : Timeval) (j : Int)
    (sendRv : Int) :
    RetransInvariant (ni_dhcp6_device_transmit_start dev now j sendRv).1.retrans := by
  apply retransInvariant_of_delay_zero
  unfold ni_dhcp6_device_transmit_start
  rw [transmit_delay, retransmit_arm_delay_zero]

/-- Unfolding of `ni_dhcp6_device_transmit_arm_delay` with a pending
delay. -/
theorem transmit_arm_delay_pending (dev : Device) (j : Int)
    (h : dev.retrans.delay ≠ 0) :
    ni_dhcp6_device_transmit_arm_delay dev j =
      ({ dev with fsmTimer := some (ni_timeout_randomize dev.retrans.delay j) },
       true) := by
  unfold ni_dhcp6_device_transmit_arm_delay
  simp [h]

/-- Every scheduler operation preserves the invariant. -/
theorem applyOp_invariant (dev : Device) (op : SchedOp)
    (h : RetransInvariant dev.retrans) :
    RetransInvariant (applyOp dev op).retrans := by
  cases op with
  | startExchange x d p dur jb =>
    exact ⟨fun _ => ⟨rfl, rfl⟩, fun hdl => absurd rfl hdl⟩
  | transmitInit now jd ja rv =>
    show RetransInvariant (ni_dhcp6_device_transmit_init dev now jd ja rv).1.retrans
    by_cases hd : dev.retrans.delay = 0
    · have he : ni_dhcp6_device_transmit_init dev now jd ja rv =
          ni_dhcp6_device_transmit_start dev now ja rv := by
        unfold ni_dhcp6_device_transmit_init ni_dhcp6_device_transmit_arm_delay
        simp [hd]
      rw [he]
      exact transmit_start_invariant dev now ja rv
    · have he : ni_dhcp6_device_transmit_init dev now jd ja rv =
          ({ dev with fsmTimer := some (ni_timeout_randomize dev.retrans.delay jd) },
           0) := by
        unfold ni_dhcp6_device_transmit_init
        rw [transmit_arm_delay_pending dev jd hd]
        rfl
      rw [he]
      exact h
  | transmitStart now ja rv =>
    exact transmit_start_invariant dev now ja rv
  | retransmitExpire now j msg rv ok =>
    show RetransInvariant
      (if dev.retrans.deadline = none then dev
       else (ni_dhcp6_device_retransmit dev now j msg rv ok).1).retrans
    by_cases hdl : dev.retrans.deadline = none
    · rw [if_pos hdl]
      exact h
    · rw [if_neg hdl]
      exact retransInvariant_of_delay_zero _
        (retransmit_delay_zero dev now j msg rv ok (h.2 hdl))
  | disarm =>
    show RetransInvariant (ni_dhcp6_device_retransmit_disarm dev).retrans
    exact retransInvariant_of_delay_zero _ rfl

/-- The invariant is preserved along every operation sequence. -/
theorem runOps_invariant (ops : List SchedOp) :
    ∀ dev : Device, RetransInvariant dev.retrans →
      RetransInvariant (runOps dev ops).retrans := by
  induction ops with
  | nil =>
    intro dev h
    exact h
  | cons op rest ih =>
    intro dev h
    exact ih (applyOp dev op) (applyOp_invariant dev op h)

/-! ## Claim C3: retransmission-state exclusivity -/

/-- Claim C3: the exclusivity invariant (a pending initial delay implies no
start time and zero count, and an armed deadline implies the delay is
consumed) holds for every device satisfying it initially - in particular
every freshly created device - under every sequence of scheduler
operations; immediately after `ni_dhcp6_device_retransmit_arm` the delay is
zero and the start time set; and `ni_dhcp6_device_transmit_arm_delay`
reports "no delay scheduled" exactly when `retrans.delay == 0`, otherwise
arming a single FSM timeout randomized in
`[delay - jitter_base, delay + jitter_base]`. -/
theorem claim_C3 :
    (∀ (dev : Device) (ops : List SchedOp), RetransInvariant dev.retrans →
      RetransInvariant (runOps dev ops).retrans) ∧
    (∀ (ifname : List Nat) (ifindex iaid : Nat),
      RetransInvariant (ni_dhcp6_device_new ifname ifindex iaid).retrans) ∧
    (∀ (dev : Device) (now : Timeval) (j : Int),
      (ni_dhcp6_device_retransmit_arm dev now j).retrans.delay = 0 ∧
      (ni_dhcp6_device_retransmit_arm dev now j).retrans.start = some now) ∧
    (∀ (dev : Device) (j : Int),
      (ni_dhcp6_device_transmit_arm_delay dev j).2 = false ↔
        dev.retrans.delay = 0) ∧
    (∀ (dev : Device) (j : Int), dev.retrans.delay ≠ 0 →
      (dev.retrans.jitter : Int) ≤ (dev.retrans.delay : Int) →
      -(dev.retrans.jitter : Int) ≤ j → j ≤ (dev.retrans.jitter : Int) →
      (ni_dhcp6_device_transmit_arm_delay dev j).2 = true ∧
      (ni_dhcp6_device_transmit_arm_delay dev j).1.fsmTimer =
        some (ni_timeout_randomize dev.retrans.delay j) ∧
      (dev.retrans.delay : Int) - (dev.retrans.jitter : Int) ≤
        ((ni_timeout_randomize dev.retrans.delay j : Nat) : Int) ∧
      ((ni_timeout_randomize dev.retrans.delay j : Nat) : Int) ≤
        (dev.retrans.delay : Int) + (dev.retrans.jitter : Int) ∧
      (ni_dhcp6_device_transmit_arm_delay dev j).1.retrans = dev.retrans) := by
  refine ⟨fun dev ops h => runOps_invariant ops dev h, ?_, ?_, ?_, ?_⟩
  · intro ifname ifindex iaid
    exact retransInvariant_of_delay_zero _ rfl
  · intro dev now j
    exact ⟨retransmit_arm_delay_zero dev now j, retransmit_arm_start dev now j⟩
  · intro dev j
    unfold ni_dhcp6_device_transmit_arm_delay
    by_cases hd : dev.retrans.delay = 0
    · simp [hd]
    · simp [hd]
  · intro dev j hd hjb hjlo hjhi
    rw [transmit_arm_delay_pending dev j hd]
    refine ⟨rfl, rfl, ?_, ?_, rfl⟩
    · unfold ni_timeout_randomize
      omega
    · unfold ni_timeout_randomize
      omega

/-- Witness for C3 at a concrete device and operation sequence: begin an
exchange with a 1000 msec delay, arm and consume it, transmit, let the
deadline expire twice, disarm. -/
theorem claim_C3_witness :
    RetransInvariant
      (runOps exDev
        [SchedOp.startExchange 7 1000 exParams 0 100,
         SchedOp.transmitInit ⟨1, 0⟩ (-5) 3 1,
         SchedOp.transmitStart ⟨2, 0⟩ 3 1,
         SchedOp.retransmitExpire ⟨3, 0⟩ (-7) [1] 1 true,
         SchedOp.retransmitExpire ⟨5, 0⟩ 7 [1] (-1) true,
         SchedOp.disarm]).retrans ∧
    (ni_dhcp6_device_retransmit_arm exDevDelay ⟨1, 0⟩ 3).retrans.delay = 0 ∧
    (ni_dhcp6_device_retransmit_arm exDevDelay ⟨1, 0⟩ 3).retrans.start = some ⟨1, 0⟩ ∧
    ((ni_dhcp6_device_transmit_arm_delay exDev 0).2 = false ↔
      exDev.retrans.delay = 0) ∧
    (ni_dhcp6_device_transmit_arm_delay exDevDelay 37).1.fsmTimer =
      some (ni_timeout_randomize exDevDelay.retrans.delay 37) :=
  ⟨claim_C3.1 exDev
      [SchedOp.startExchange 7 1000 exParams 0 100,
       SchedOp.transmitInit ⟨1, 0⟩ (-5) 3 1,
       SchedOp.transmitStart ⟨2, 0⟩ 3 1,
       SchedOp.retransmitExpire ⟨3, 0⟩ (-7) [1] 1 true,
       SchedOp.retransmitExpire ⟨5, 0⟩ 7 [1] (-1) true,
       SchedOp.disarm] (by decide),
   (claim_C3.2.2.1 exDevDelay ⟨1, 0⟩ 3).1,
   (claim_C3.2.2.1 exDevDelay ⟨1, 0⟩ 3).2,
   claim_C3.2.2.2.1 exDev 0,
   (claim_C3.2.2.2.2 exDevDelay 37 (by decide) (by decide) (by decide)
     (by decide)).2.1⟩

end Wicked
